import Mathlib

/-!
Verification of the graph-node excerpt: the ASC padding codec
(`runtime/test/src/test_padding.rs`), the mock sourceable store and triggers
adapter wrapper (`graph/tests/subgraph_datasource_tests.rs`), and the dev CLI
(`node/src/bin/dev.rs`), embedded shallowly in Lean.

Definitions come first, translated from the Rust source; all theorems follow.
-/

namespace GraphNode

/-! ## Byte-level primitives

The primitive `AscType` encodings used by `test_padding.rs` (`u64::to_asc_bytes`,
`AscPtr::to_asc_bytes`) live in the `graph` runtime crate.  They serialize a
`u64` to its 8 little-endian bytes and an `AscPtr` (a `u32` guest offset) to its
4 little-endian bytes.  Only their lengths matter for the padding invariant. -/

/-- The 8 little-endian bytes of a `u64` value (values reduced mod 2^64). -/
def u64ToAscBytes (n : Nat) : List Nat :=
  (List.range 8).map (fun i => n / 256 ^ i % 256)

/-- The 4 little-endian bytes of a `u32` value, the encoding of an
`AscPtr<T>` (a 32-bit guest offset) and of a `u32` field. -/
def u32ToAscBytes (n : Nat) : List Nat :=
  (List.range 4).map (fun i => n / 256 ^ i % 256)

/-! ## `#[repr(C)]` struct layout

Rust's `std::mem::size_of::<T>()` for a `#[repr(C)]` struct follows the C
struct layout algorithm: each field is placed at the next offset aligned to the
field's alignment, and the total size is the end offset rounded up to the
struct's alignment (the maximum field alignment). -/

/-- Round `n` up to the next multiple of `a`. -/
def alignUp (n a : Nat) : Nat := (n + a - 1) / a * a

/-- Size of a `#[repr(C)]` struct from its fields' (size, alignment) pairs. -/
def reprCSize (fields : List (Nat × Nat)) : Nat :=
  let structAlign := fields.foldl (fun a f => max a f.2) 1
  let endOffset := fields.foldl (fun off f => alignUp off f.2 + f.1) 0
  alignUp endOffset structAlign

/-- Value of `std::mem::size_of::<AscBad>()`: fields `nonce: u64`,
`str_suff: AscPtr<AscString>` (a `u32`), `tail: u64`, under `#[repr(C)]`. -/
def sizeOfAscBad : Nat := reprCSize [(8, 8), (4, 4), (8, 8)]

/-- Value of `std::mem::size_of::<AscBadFixed>()`: fields `nonce: u64`,
`str_suff: AscPtr<AscString>`, `_padding: u32`, `tail: u64`, under `#[repr(C)]`. -/
def sizeOfAscBadFixed : Nat := reprCSize [(8, 8), (4, 4), (4, 4), (8, 8)]

/-! ## The ASC test structs and their `to_asc_bytes` -/

/-- Outcome of a Rust function that may return `Ok`, return `Err`, or panic
(`assert!` / `assert_eq!` failures are panics, not `Err`s). -/
inductive EncodeResult (α : Type) where
  | ok (v : α)
  | err (e : String)
  | panicked (msg : String)
  deriving Repr, DecidableEq

/-- Host mirror `AscBad` from `test_padding.rs`: `nonce: u64`,
`str_suff: AscPtr<AscString>`, `tail: u64` (no explicit padding field). -/
structure AscBad where
  nonce : Nat
  str_suff : Nat
  tail : Nat
  deriving Repr, DecidableEq

/-- Host mirror `AscBadFixed` from `test_padding.rs`: `nonce: u64`,
`str_suff: AscPtr<AscString>`, `_padding: u32`, `tail: u64`. -/
structure AscBadFixed where
  nonce : Nat
  str_suff : Nat
  _padding : Nat
  tail : Nat
  deriving Repr, DecidableEq

/-- Function `AscBad::to_asc_bytes`: serializes the three fields and then
`assert!(bytes.len() != in_memory_byte_count, "struct is intentionally misaligned")`;
the assert panics when the serialized length equals the struct size, and
otherwise the mismatched bytes are returned as `Ok`. -/
def AscBad.to_asc_bytes (x : AscBad) : EncodeResult (List Nat) :=
  let bytes := u64ToAscBytes x.nonce ++ u32ToAscBytes x.str_suff ++ u64ToAscBytes x.tail
  if bytes.length ≠ sizeOfAscBad then
    .ok bytes
  else
    .panicked "struct is intentionally misaligned"

/-- Function `AscBadFixed::to_asc_bytes`: serializes the four fields (including
the explicit `_padding: u32`) and `assert_eq!(bytes.len(), in_memory_byte_count, ...)`;
the assert panics on a length mismatch, otherwise the bytes are returned. -/
def AscBadFixed.to_asc_bytes (x : AscBadFixed) : EncodeResult (List Nat) :=
  let bytes := u64ToAscBytes x.nonce ++ u32ToAscBytes x.str_suff ++
    u32ToAscBytes x._padding ++ u64ToAscBytes x.tail
  if bytes.length = sizeOfAscBadFixed then
    .ok bytes
  else
    .panicked "Alignment mismatch for AscBadFixed, re-order fields or explicitely add a _padding field"

/-! ## Mock sourceable store (`graph/tests/subgraph_datasource_tests.rs`)

`BlockNumber` is `i32` in the `graph` crate; we model it as `Int`.  A
`BTreeMap<BlockNumber, Vec<EntityWithType>>` is modelled as an association
list whose keys are strictly ascending; `BTreeMap::range(lo..hi)` returns the
entries with `lo ≤ key < hi` in key order, i.e. a filter of that list. -/

/-- Block numbers (`i32` in the source). -/
abbrev BlockNumber := Int

/-- Type `BlockHash`: a variable-length byte string (`Box<[u8]>`). -/
structure BlockHash where
  bytes : List Nat
  deriving Repr, DecidableEq

/-- Type `BlockPtr`: a pair (hash, number). -/
structure BlockPtr where
  hash : BlockHash
  number : BlockNumber
  deriving Repr, DecidableEq

/-- Constructor `BlockPtr::new`. -/
def BlockPtr.new (hash : BlockHash) (number : BlockNumber) : BlockPtr :=
  ⟨hash, number⟩

/-- Modelled from the spec: entity field values are a closed sum
(String, Int, BigInt, Bytes, Bool, List, Null); the `Value` enum lives in the
`graph` crate outside the excerpt.  The recursive `List` variant is omitted
here: no claim involves list-valued fields. -/
inductive Value where
  | string (s : String)
  | int (i : Int)
  | bigInt (i : Int)
  | bytes (b : List Nat)
  | bool (b : Bool)
  | null
  deriving Repr, DecidableEq

/-- An entity type name from the schema. -/
structure EntityType where
  name : String
  deriving Repr, DecidableEq

/-- Modelled from the spec: an entity is an ordered list of
(field-name, value) pairs; the `Entity` type lives in the `graph` crate
outside the excerpt. -/
structure Entity where
  fields : List (String × Value)
  deriving Repr, DecidableEq

/-- Enum `EntitySubgraphOperation`: the operation tag of an entity trigger. -/
inductive EntitySubgraphOperation where
  | create
  | modify
  | delete
  deriving Repr, DecidableEq

/-- Struct `EntityWithType`: an entity change with its type, operation and vid. -/
structure EntityWithType where
  entity_type : EntityType
  entity : Entity
  entity_op : EntitySubgraphOperation
  vid : Int
  deriving Repr, DecidableEq

/-- Modelled from the spec: an `InputSchema` is a parsed, immutable schema
scoped to a deployment; we carry the source document and the deployment hash.
The parser lives in the `graph` crate outside the excerpt. -/
structure InputSchema where
  document : String
  deployment : String
  deriving Repr, DecidableEq

/-- Type `StoreError` (opaque here: the mock store never produces one). -/
inductive StoreError where
  | unknown (msg : String)
  deriving Repr, DecidableEq

/-- Type `CausalityRegion` is a small integer (`i32` wrapper); on-chain data
lives in region 0. -/
abbrev CausalityRegion := Int

/-- Struct `MockSourcableStore` from `subgraph_datasource_tests.rs`: a
`BTreeMap<BlockNumber, Vec<EntityWithType>>` of entities (keys strictly
ascending), an `InputSchema`, and an optional `BlockPtr`. -/
structure MockSourcableStore where
  entities : List (BlockNumber × List EntityWithType)
  schema : InputSchema
  block_ptr : Option BlockPtr
  deriving Repr, DecidableEq

/-- Constructor `MockSourcableStore::new`. -/
def MockSourcableStore.new (entities : List (BlockNumber × List EntityWithType))
    (schema : InputSchema) (block_ptr : Option BlockPtr) : MockSourcableStore :=
  ⟨entities, schema, block_ptr⟩

/-- Method `MockSourcableStore::set_block_ptr`. -/
def MockSourcableStore.set_block_ptr (s : MockSourcableStore) (ptr : BlockPtr) :
    MockSourcableStore :=
  { s with block_ptr := some ptr }

/-- Method `MockSourcableStore::clear_block_ptr`. -/
def MockSourcableStore.clear_block_ptr (s : MockSourcableStore) : MockSourcableStore :=
  { s with block_ptr := none }

/-- Method `MockSourcableStore::increment_block`: the `&mut self` receiver is
modelled by returning the updated store alongside the `Result<(), &'static str>`. -/
def MockSourcableStore.increment_block (s : MockSourcableStore) :
    Except String Unit × MockSourcableStore :=
  match s.block_ptr with
  | some ptr => (.ok (), { s with block_ptr := some (BlockPtr.new ptr.hash (ptr.number + 1)) })
  | none => (.error "No block pointer set", s)

/-- Method `MockSourcableStore::decrement_block`: errors when the pointer is
unset or already at 0, otherwise decrements the number keeping the hash. -/
def MockSourcableStore.decrement_block (s : MockSourcableStore) :
    Except String Unit × MockSourcableStore :=
  match s.block_ptr with
  | some ptr =>
      if ptr.number = 0 then (.error "Block number already at 0", s)
      else (.ok (), { s with block_ptr := some (BlockPtr.new ptr.hash (ptr.number - 1)) })
  | none => (.error "No block pointer set", s)

/-- The entries of a key-sorted association list whose key lies in
`[lo, hi)` — the model of `BTreeMap::range(lo..hi)` and of restricting a
returned map to a block range. -/
def rangeRestrict (lo hi : BlockNumber)
    (m : List (BlockNumber × List EntityWithType)) :
    List (BlockNumber × List EntityWithType) :=
  m.filter (fun p => decide (lo ≤ p.1 ∧ p.1 < hi))

/-- Method `MockSourcableStore::get_range`: ignores `entity_types` and
`causality_region` (both bound as `_` in the source) and returns `Ok` of the
stored entries whose block number is in the half-open range `[lo, hi)`. -/
def MockSourcableStore.get_range (s : MockSourcableStore)
    (_entity_types : List EntityType) (_causality_region : CausalityRegion)
    (lo hi : BlockNumber) :
    Except StoreError (List (BlockNumber × List EntityWithType)) :=
  .ok (rangeRestrict lo hi s.entities)

/-- Method `MockSourcableStore::input_schema`. -/
def MockSourcableStore.input_schema (s : MockSourcableStore) : InputSchema :=
  s.schema

/-- Method `MockSourcableStore::block_ptr` (the `SourceableStore` trait method). -/
def MockSourcableStore.block_ptr_method (s : MockSourcableStore) :
    Except StoreError (Option BlockPtr) :=
  .ok s.block_ptr

/-! ## Triggers adapter wrapper

The wrapper itself (`TriggersAdapterWrapper::blocks_with_subgraph_triggers`)
and the mock chain adapter live in the `graph` crate outside the excerpt; they
are modelled from the spec (§4.E) and exercised by
`test_triggers_adapter_with_entities` in the excerpt. -/

/-- Struct `SubgraphFilter { deployment, start_block, entity_types }`. -/
structure SubgraphFilter where
  subgraph : String
  start_block : BlockNumber
  entities : List String
  deriving Repr, DecidableEq

/-- Enum `SubgraphTriggerScanRange`: an inclusive-inclusive block range, with
a single-block variant. -/
inductive SubgraphTriggerScanRange where
  | single (b : BlockNumber)
  | range (lo hi : BlockNumber)
  deriving Repr, DecidableEq

/-- A trigger: the spec's tagged value with log-, call-, block- and
entity-subgraph-matched variants; an entity trigger carries its source
deployment hash and the entity change. -/
inductive Trigger where
  | log (data : List Nat)
  | call (data : List Nat)
  | block (number : BlockNumber)
  | entitySubgraph (source : String) (e : EntityWithType)
  deriving Repr, DecidableEq

/-- Blocks covered by a scan range: `Range(lo, hi)` is inclusive on both ends
and empty when `hi < lo` (empty ranges return an empty list, not an error). -/
def scanBlocks : SubgraphTriggerScanRange → List BlockNumber
  | .single b => [b]
  | .range lo hi => (List.range (hi + 1 - lo).toNat).map (fun i => lo + i)

/-- Modelled from the spec: the mock chain adapter
(`graph::blockchain::mock::MockTriggersAdapter`, outside the excerpt)
contributes no native triggers to the merge. -/
def mockNativeTriggersAt (_b : BlockNumber) : List Trigger := []

/-- Modelled from the spec: the entity-subgraph triggers a source store
contributes at one block — one trigger per entity from `get_range` over the
block, kept when some filter monitors the entity's type and has
`start_block ≤ block`, ordered by vid ascending. -/
def entityTriggersAt (filters : List SubgraphFilter) (s : MockSourcableStore)
    (b : BlockNumber) : List Trigger :=
  match s.get_range (filters.foldr (fun f acc => f.entities.map EntityType.mk ++ acc) [])
      0 b (b + 1) with
  | .ok m =>
      (List.insertionSort (fun a b => a.vid ≤ b.vid)
        ((m.foldr (fun p acc => p.2 ++ acc) []).filter
          (fun e => filters.any (fun f =>
            decide (f.start_block ≤ b) && f.entities.contains e.entity_type.name)))).map
        (fun e => Trigger.entitySubgraph s.schema.deployment e)
  | .error _ => []

/-- Struct `TriggersAdapterWrapper`: a chain-native adapter (the mock one,
which contributes nothing) and the list of sourceable stores. -/
structure TriggersAdapterWrapper where
  sources : List MockSourcableStore
  deriving Repr, DecidableEq

/-- Modelled from the spec:
`TriggersAdapterWrapper::blocks_with_subgraph_triggers(filters, scan_range)`
merges, per block of the scan range, the native triggers (first) with the
entity-subgraph triggers of every source store. -/
def TriggersAdapterWrapper.blocks_with_subgraph_triggers (w : TriggersAdapterWrapper)
    (filters : List SubgraphFilter) (scan : SubgraphTriggerScanRange) :
    Except StoreError (List (BlockNumber × List Trigger)) :=
  .ok ((scanBlocks scan).map (fun b =>
    (b, mockNativeTriggersAt b ++
      w.sources.foldr (fun s acc => entityTriggersAt filters s b ++ acc) [])))

/-- All triggers of a result, in block order. -/
def blocksTriggers (blocks : List (BlockNumber × List Trigger)) : List Trigger :=
  blocks.foldr (fun p acc => p.2 ++ acc) []

/-! ## Test fixtures from `test_triggers_adapter_with_entities` -/

/-- The test schema `type User @entity \x7b id: String!, name: String!, age: Int \x7d`
for deployment `test_deployment`. -/
def testSchema : InputSchema :=
  ⟨"type User @entity \x7b id: String!, name: String!, age: Int \x7d", "test_deployment"⟩

/-- The all-zero 32-byte block hash used by the test. -/
def zeroHash : BlockHash := ⟨List.replicate 32 0⟩

/-- The `User` entity type. -/
def userType : EntityType := ⟨"User"⟩

/-- Entity (`user1`, "Alice", 30). -/
def user1 : Entity :=
  ⟨[("id", .string "user1"), ("name", .string "Alice"), ("age", .int 30)]⟩

/-- Entity (`user2`, "Bob", 25). -/
def user2 : Entity :=
  ⟨[("id", .string "user2"), ("name", .string "Bob"), ("age", .int 25)]⟩

/-- The first entity change: Create of `user1` with vid 1. -/
def entity1 : EntityWithType := ⟨userType, user1, .create, 1⟩

/-- The second entity change: Create of `user2` with vid 2. -/
def entity2 : EntityWithType := ⟨userType, user2, .create, 2⟩

/-- The test's entity map: `entity1` at block 1, `entity2` at block 2. -/
def testEntities : List (BlockNumber × List EntityWithType) :=
  [(1, [entity1]), (2, [entity2])]

/-- The test's mock store, with block pointer at (zero hash, 0). -/
def testStore : MockSourcableStore :=
  MockSourcableStore.new testEntities testSchema (some (BlockPtr.new zeroHash 0))

/-- The wrapper over the mock adapter and the test store. -/
def testWrapper : TriggersAdapterWrapper := ⟨[testStore]⟩

/-- The test's filter: `{subgraph: test_deployment, start_block: 0, entities: [User]}`. -/
def testFilter : SubgraphFilter := ⟨"test_deployment", 0, ["User"]⟩

/-- A store with no block pointer set. -/
def storeNoPtr : MockSourcableStore := MockSourcableStore.new [] testSchema none

/-- A store whose block pointer number is 0. -/
def storeAtZero : MockSourcableStore :=
  MockSourcableStore.new [] testSchema (some (BlockPtr.new zeroHash 0))

/-- A store whose block pointer number is 5. -/
def storeAtFive : MockSourcableStore :=
  MockSourcableStore.new [] testSchema (some (BlockPtr.new zeroHash 5))

/-! ## Dev CLI (`node/src/bin/dev.rs`) -/

/-- Struct `DevOpt`: the resolved values of the dev CLI options. -/
structure DevOpt where
  watch : Bool
  manifests : List String
  sources : List String
  database_dir : String
  postgres_url : Option String
  ethereum_rpc : List String
  ipfs : List String
  deriving Repr, DecidableEq

/-- Command-line presence (`some`) or absence (`none`) of each `DevOpt`
option; `--watch` is a flag. -/
structure DevArgs where
  watch : Bool
  manifests : Option (List String)
  sources : Option (List String)
  database_dir : Option String
  postgres_url : Option String
  ethereum_rpc : Option (List String)
  ipfs : Option (List String)
  deriving Repr

/-- An environment: variable name to optional value. -/
def EnvMap := String → Option String

/-- Resolution of `DevOpt` transcribed from its `#[clap(...)]` attributes in
`dev.rs`, under clap's priority (command line over `env` binding over
`default_value`): `manifests` defaults to `./subgraph.yaml`, `sources` to
empty, `database_dir` to `./build`, `postgres_url` falls back to env
`POSTGRES_URL` (no default), `ethereum_rpc` falls back to env `ETHEREUM_RPC`
(no default; the env value yields one element), and `ipfs` falls back to env
`IPFS` then to the public gateway. -/
def parseDevOpt (args : DevArgs) (env : EnvMap) : DevOpt where
  watch := args.watch
  manifests := args.manifests.getD ["./subgraph.yaml"]
  sources := args.sources.getD []
  database_dir := args.database_dir.getD "./build"
  postgres_url := args.postgres_url.orElse (fun _ => env "POSTGRES_URL")
  ethereum_rpc := args.ethereum_rpc.getD (((env "ETHEREUM_RPC").map (fun v => [v])).getD [])
  ipfs := args.ipfs.getD (((env "IPFS").map (fun v => [v])).getD ["https://api.thegraph.com/ipfs"])

/-- A command line passing none of the options. -/
def emptyDevArgs : DevArgs := ⟨false, none, none, none, none, none, none⟩

/-- How the dev process ends: an exit with a code, or running forever. -/
inductive ProcessOutcome where
  | exited (code : Nat)
  | runningForever
  deriving Repr, DecidableEq

/-- The outcomes of the fallible steps of `main` in `dev.rs`:
`get_database_url`, `parse_manifest_args` (paths and aliases collapsed to a
list), the `--watch` flag, and the `watch_subgraphs` result. -/
structure DevMainInputs where
  databaseUrl : Except String String
  manifestArgs : Except String (List String)
  watch : Bool
  watcherResult : Except String Unit
  deriving Repr

/-- Exit behaviour of `main` in `dev.rs`: `main` returns `anyhow::Result<()>`,
so a `?` failure (database URL, manifest parsing) makes `main` return `Err`,
which the Rust runtime reports as exit code 1 (`ExitCode::FAILURE`); a watcher
error calls `std::process::exit(1)`; otherwise `main` awaits
`pending::<()>()` and never returns. -/
def devMain (i : DevMainInputs) : ProcessOutcome :=
  match i.databaseUrl with
  | .error _ => .exited 1
  | .ok _ =>
    match i.manifestArgs with
    | .error _ => .exited 1
    | .ok _ =>
      if i.watch then
        match i.watcherResult with
        | .error _ => .exited 1
        | .ok _ => .runningForever
      else .runningForever

/-! ## Helper lemmas -/

theorem u64ToAscBytes_length (n : Nat) : (u64ToAscBytes n).length = 8 := by
  simp [u64ToAscBytes]

theorem u32ToAscBytes_length (n : Nat) : (u32ToAscBytes n).length = 4 := by
  simp [u32ToAscBytes]

theorem sizeOfAscBad_eq : sizeOfAscBad = 24 := by decide

theorem sizeOfAscBadFixed_eq : sizeOfAscBadFixed = 24 := by decide

theorem AscBad_to_asc_bytes_ok (x : AscBad) :
    x.to_asc_bytes =
      .ok (u64ToAscBytes x.nonce ++ u32ToAscBytes x.str_suff ++ u64ToAscBytes x.tail) := by
  simp [AscBad.to_asc_bytes, sizeOfAscBad_eq, u64ToAscBytes_length, u32ToAscBytes_length]

theorem AscBadFixed_to_asc_bytes_ok (x : AscBadFixed) :
    x.to_asc_bytes =
      .ok (u64ToAscBytes x.nonce ++ u32ToAscBytes x.str_suff ++
        u32ToAscBytes x._padding ++ u64ToAscBytes x.tail) := by
  simp [AscBadFixed.to_asc_bytes, sizeOfAscBadFixed_eq, u64ToAscBytes_length,
    u32ToAscBytes_length]

theorem rangeRestrict_sub (f1 t1 f2 t2 : BlockNumber)
    (hsub : ∀ n : BlockNumber, f1 ≤ n ∧ n < t1 → f2 ≤ n ∧ n < t2)
    (l : List (BlockNumber × List EntityWithType)) :
    rangeRestrict f1 t1 (rangeRestrict f2 t2 l) = rangeRestrict f1 t1 l := by
  unfold rangeRestrict
  rw [List.filter_filter]
  apply List.filter_congr
  intro x _
  by_cases h1 : f1 ≤ x.1 ∧ x.1 < t1
  · have h2 := hsub x.1 h1
    simp [h1, h2]
  · simp [h1]

/-! ## Claim theorems -/

/-- C1 counterexample: the claim "for every ASC type T (AscBad and AscBadFixed)
and every value x, an `Ok` result of `to_asc_bytes(x)` has length
`size_of::<T>()`" fails on `AscBad`: at the concrete value
`{nonce := 0, str_suff := 0, tail := 0}`, `to_asc_bytes` returns `Ok` of a
20-byte vector while `size_of::<AscBad>()` is 24. -/
theorem C1_claim_counterexample :
    AscBad.to_asc_bytes ⟨0, 0, 0⟩ =
      .ok (u64ToAscBytes 0 ++ u32ToAscBytes 0 ++ u64ToAscBytes 0) ∧
    (u64ToAscBytes 0 ++ u32ToAscBytes 0 ++ u64ToAscBytes 0).length ≠ sizeOfAscBad := by
  decide

/-- C1 amended: for `AscBadFixed`, every `Ok` result of `to_asc_bytes` has
length equal to `size_of::<AscBadFixed>()`; for `AscBad` (intentionally
misaligned for the negative padding test), `to_asc_bytes` returns `Ok` of a
20-byte vector on every value, which differs from `size_of::<AscBad>() = 24`. -/
theorem C1_amended :
    (∀ (x : AscBadFixed) (bs : List Nat),
        x.to_asc_bytes = .ok bs → bs.length = sizeOfAscBadFixed) ∧
    (∀ y : AscBad, ∃ cs, y.to_asc_bytes = .ok cs ∧ cs.length = 20 ∧
        cs.length ≠ sizeOfAscBad) := by
  constructor
  · intro x bs h
    rw [AscBadFixed_to_asc_bytes_ok] at h
    cases h
    simp [sizeOfAscBadFixed_eq, u64ToAscBytes_length, u32ToAscBytes_length]
  · intro y
    refine ⟨_, AscBad_to_asc_bytes_ok y, ?_, ?_⟩ <;>
      simp [sizeOfAscBad_eq, u64ToAscBytes_length, u32ToAscBytes_length]

/-- C1 amended, witness: the amended theorem applied at the concrete value
`AscBadFixed {nonce := 1, str_suff := 2, _padding := 0, tail := 3}`. -/
theorem C1_amended_witness :
    (u64ToAscBytes 1 ++ u32ToAscBytes 2 ++ u32ToAscBytes 0 ++
      u64ToAscBytes 3).length = sizeOfAscBadFixed :=
  C1_amended.1 ⟨1, 2, 0, 3⟩ _ (AscBadFixed_to_asc_bytes_ok ⟨1, 2, 0, 3⟩)

/-- C2 counterexample: the claim "whenever the serialized byte length differs
from the struct's in-memory size, `to_asc_bytes` returns `Err` rather than the
mismatched bytes" fails on `AscBad` at the test's own value
`{nonce := i64::MAX, str_suff := ptr, tail := i64::MAX}`: the serialized length
20 differs from `size_of::<AscBad>() = 24`, yet `to_asc_bytes` returns `Ok` of
the mismatched bytes (the failure only surfaces later at the guest call). -/
theorem C2_claim_counterexample :
    AscBad.to_asc_bytes ⟨9223372036854775807, 4, 9223372036854775807⟩ =
      .ok (u64ToAscBytes 9223372036854775807 ++ u32ToAscBytes 4 ++
        u64ToAscBytes 9223372036854775807) ∧
    (u64ToAscBytes 9223372036854775807 ++ u32ToAscBytes 4 ++
      u64ToAscBytes 9223372036854775807).length ≠ sizeOfAscBad := by
  decide

/-- C2 amended: `AscBad::to_asc_bytes` returns `Ok` of the mismatched bytes on
every value (length 20 ≠ size 24) — the mismatch is not an `Err` at encode time
but surfaces at the guest call; `AscBadFixed::to_asc_bytes` never produces a
mismatch: every value yields `Ok` bytes of exactly the struct size (a mismatch
would panic via `assert_eq!`, not return `Err`). -/
theorem C2_amended :
    (∀ x : AscBad, ∃ bs, x.to_asc_bytes = .ok bs ∧ bs.length ≠ sizeOfAscBad) ∧
    (∀ x : AscBadFixed, ∃ bs, x.to_asc_bytes = .ok bs ∧
        bs.length = sizeOfAscBadFixed) := by
  constructor
  · intro x
    refine ⟨_, AscBad_to_asc_bytes_ok x, ?_⟩
    simp [sizeOfAscBad_eq, u64ToAscBytes_length, u32ToAscBytes_length]
  · intro x
    refine ⟨_, AscBadFixed_to_asc_bytes_ok x, ?_⟩
    simp [sizeOfAscBadFixed_eq, u64ToAscBytes_length, u32ToAscBytes_length]

/-- C3: for every value of `AscBadFixed` (the corrected struct with the
explicit `_padding: u32` field between `str_suff` and `tail`), `to_asc_bytes`
returns `Ok`, and the returned byte vector's length is 8 + 4 + 4 + 8 = 24,
which equals `size_of::<AscBadFixed>()`. -/
theorem C3_ascBadFixed_ok_and_sized (x : AscBadFixed) :
    ∃ bs, x.to_asc_bytes = .ok bs ∧ bs.length = 8 + 4 + 4 + 8 ∧
      bs.length = sizeOfAscBadFixed := by
  refine ⟨_, AscBadFixed_to_asc_bytes_ok x, ?_, ?_⟩ <;>
    simp [sizeOfAscBadFixed_eq, u64ToAscBytes_length, u32ToAscBytes_length]

/-- C4: `get_range` is monotone in its range: for every store, any entity
types and causality regions, and ranges `[f1, t1) ⊆ [f2, t2)`, the result over
`[f1, t1)` is the result over `[f2, t2)` restricted to keys in `[f1, t1)`. -/
theorem C4_get_range_monotone (s : MockSourcableStore) (et1 et2 : List EntityType)
    (cr1 cr2 : CausalityRegion) (f1 t1 f2 t2 : BlockNumber)
    (hsub : ∀ n : BlockNumber, f1 ≤ n ∧ n < t1 → f2 ≤ n ∧ n < t2) :
    s.get_range et1 cr1 f1 t1 =
      Except.map (rangeRestrict f1 t1) (s.get_range et2 cr2 f2 t2) := by
  have h := rangeRestrict_sub f1 t1 f2 t2 hsub s.entities
  simp [MockSourcableStore.get_range, Except.map, h]

/-- C4 witness: the monotonicity theorem applied to the test store with
`[1, 2) ⊆ [0, 3)`. -/
theorem C4_get_range_monotone_witness :
    testStore.get_range [userType] 0 1 2 =
      Except.map (rangeRestrict 1 2) (testStore.get_range [userType] 0 0 3) :=
  C4_get_range_monotone testStore [userType] [userType] 0 0 1 2 0 3
    (fun n h => ⟨le_trans (by norm_num) h.1, lt_trans h.2 (by norm_num)⟩)

/-- C5: over a half-open range `[lo, hi)`, `get_range` returns `Ok` of a map
containing exactly the stored entries whose block number `n` satisfies
`lo ≤ n < hi`, and (the stored keys being strictly ascending, the `BTreeMap`
invariant) the returned map preserves ascending block-number ordering. -/
theorem C5_get_range_exact (s : MockSourcableStore) (et : List EntityType)
    (cr : CausalityRegion) (lo hi : BlockNumber)
    (hsorted : s.entities.Pairwise (fun a b => a.1 < b.1)) :
    ∃ m, s.get_range et cr lo hi = .ok m ∧
      (∀ p, p ∈ m ↔ p ∈ s.entities ∧ lo ≤ p.1 ∧ p.1 < hi) ∧
      m.Pairwise (fun a b => a.1 < b.1) := by
  refine ⟨rangeRestrict lo hi s.entities, rfl, ?_, ?_⟩
  · intro p
    simp [rangeRestrict, List.mem_filter]
  · exact hsorted.filter _

/-- C5 witness: the exactness theorem applied to the test store (whose keys 1,
2 are strictly ascending) over the range `[1, 2)`. -/
theorem C5_get_range_exact_witness :
    ∃ m, testStore.get_range [userType] 0 1 2 = .ok m ∧
      (∀ p, p ∈ m ↔ p ∈ testStore.entities ∧ 1 ≤ p.1 ∧ p.1 < 2) ∧
      m.Pairwise (fun a b => a.1 < b.1) :=
  C5_get_range_exact testStore [userType] 0 1 2 (by decide)

/-- C6: with the source store holding (`user1`, "Alice", 30) at block 1 with
vid 1 and (`user2`, "Bob", 25) at block 2 with vid 2, the wrapper queried with
filter `{start_block: 0, entities: [User]}` over the inclusive scan range
`Range(1, 2)` returns `Ok` of a non-empty list of blocks whose triggers are
exactly the two entity triggers, in ascending vid order. -/
theorem C6_triggers_adapter_with_entities :
    ∃ blocks, testWrapper.blocks_with_subgraph_triggers [testFilter]
        (.range 1 2) = .ok blocks ∧
      blocks ≠ [] ∧
      blocksTriggers blocks =
        [.entitySubgraph "test_deployment" entity1,
         .entitySubgraph "test_deployment" entity2] ∧
      entity1.vid < entity2.vid := by
  refine ⟨_, rfl, ?_, ?_, ?_⟩ <;> decide

/-- C7: clap resolution of the dev CLI options on an empty command line:
`--manifests` defaults to `./subgraph.yaml`, `--database-dir` defaults to
`./build`, `--postgres-url` falls back to the environment variable
`POSTGRES_URL`, and `--ethereum-rpc` falls back to the environment variable
`ETHEREUM_RPC`. -/
theorem C7_devopt_defaults (env : EnvMap) :
    (parseDevOpt emptyDevArgs env).manifests = ["./subgraph.yaml"] ∧
    (parseDevOpt emptyDevArgs env).database_dir = "./build" ∧
    (parseDevOpt emptyDevArgs env).postgres_url = env "POSTGRES_URL" ∧
    (parseDevOpt emptyDevArgs env).ethereum_rpc =
      ((env "ETHEREUM_RPC").map (fun v => [v])).getD [] :=
  ⟨rfl, rfl, rfl, rfl⟩

/-- C8 counterexample: the claim "exit code 2 on a configuration error" fails:
when `get_database_url` fails (a configuration error), `main` returns `Err`
through `?` and the process exits with code 1, not 2. -/
theorem C8_claim_counterexample :
    devMain ⟨.error "Please provide a postgres_url manually using the --postgres-url option.",
        .ok [], false, .ok ()⟩ = .exited 1 ∧
    ProcessOutcome.exited 1 ≠ ProcessOutcome.exited 2 := by
  decide

/-- C8 amended: a configuration error (database URL or manifest parsing) makes
`main` return `Err`, which exits with code 1 (Rust's `ExitCode::FAILURE`); a
watcher error exits with code 1; when every step succeeds the process never
exits (it awaits `pending::<()>()` forever). -/
theorem C8_amended (i : DevMainInputs) :
    (∀ e, i.databaseUrl = .error e → devMain i = .exited 1) ∧
    (∀ u e, i.databaseUrl = .ok u → i.manifestArgs = .error e →
        devMain i = .exited 1) ∧
    (∀ u m e, i.databaseUrl = .ok u → i.manifestArgs = .ok m → i.watch = true →
        i.watcherResult = .error e → devMain i = .exited 1) ∧
    (∀ u m, i.databaseUrl = .ok u → i.manifestArgs = .ok m →
        (i.watch = false ∨ i.watcherResult = .ok ()) →
        devMain i = .runningForever) := by
  refine ⟨?_, ?_, ?_, ?_⟩
  · intro e he
    simp [devMain, he]
  · intro u e hu he
    simp [devMain, hu, he]
  · intro u m e hu hm hw hr
    simp [devMain, hu, hm, hw, hr]
  · intro u m hu hm h
    rcases h with hw | hr
    · simp [devMain, hu, hm, hw]
    · cases hw : i.watch <;> simp [devMain, hu, hm, hw, hr]

/-- C8 amended, witness: the amended theorem applied at concrete step
outcomes: a database-URL failure, a manifest-parsing failure, a watcher
failure, and an all-successful run. -/
theorem C8_amended_witness :
    devMain ⟨.error "no database url", .ok [], false, .ok ()⟩ = .exited 1 ∧
    devMain ⟨.ok "postgres:", .error "bad manifest", false, .ok ()⟩ = .exited 1 ∧
    devMain ⟨.ok "postgres:", .ok ["subgraph.yaml"], true, .error "watch failed"⟩
      = .exited 1 ∧
    devMain ⟨.ok "postgres:", .ok ["subgraph.yaml"], true, .ok ()⟩
      = .runningForever :=
  ⟨(C8_amended _).1 _ rfl,
   (C8_amended _).2.1 _ _ rfl rfl,
   (C8_amended _).2.2.1 _ _ _ rfl rfl rfl rfl,
   (C8_amended _).2.2.2 _ _ rfl rfl (Or.inr rfl)⟩

/-- C9: `decrement_block` errors and leaves the store unchanged when the
block pointer is unset or its number is 0, and on a positive number `n`
returns `Ok` with the number set to `n - 1` and the hash unchanged. -/
theorem C9_decrement_block (s : MockSourcableStore) :
    (s.block_ptr = none →
      s.decrement_block = (.error "No block pointer set", s)) ∧
    (∀ ptr, s.block_ptr = some ptr → ptr.number = 0 →
      s.decrement_block = (.error "Block number already at 0", s)) ∧
    (∀ ptr, s.block_ptr = some ptr → 0 < ptr.number →
      s.decrement_block =
        (.ok (), { s with block_ptr := some (BlockPtr.new ptr.hash (ptr.number - 1)) })) := by
  refine ⟨?_, ?_, ?_⟩
  · intro h
    simp [MockSourcableStore.decrement_block, h]
  · intro ptr h h0
    simp [MockSourcableStore.decrement_block, h, h0]
  · intro ptr h hpos
    have hne : ptr.number ≠ 0 := ne_of_gt hpos
    simp [MockSourcableStore.decrement_block, h, hne]

/-- C9 witness: the theorem applied at a store with no pointer, a store at
block 0, and a store at block 5. -/
theorem C9_decrement_block_witness :
    storeNoPtr.decrement_block = (.error "No block pointer set", storeNoPtr) ∧
    storeAtZero.decrement_block = (.error "Block number already at 0", storeAtZero) ∧
    storeAtFive.decrement_block =
      (.ok (), { storeAtFive with block_ptr := some (BlockPtr.new zeroHash (5 - 1)) }) :=
  ⟨(C9_decrement_block storeNoPtr).1 rfl,
   (C9_decrement_block storeAtZero).2.1 (BlockPtr.new zeroHash 0) rfl rfl,
   (C9_decrement_block storeAtFive).2.2 (BlockPtr.new zeroHash 5) rfl (by decide)⟩

/-- C10: `MockSourcableStore::get_range` does not depend on its
`entity_types` or `causality_region` arguments: any two calls over the same
store and block range return identical results. -/
theorem C10_get_range_ignores_filters (s : MockSourcableStore)
    (et1 et2 : List EntityType) (cr1 cr2 : CausalityRegion) (lo hi : BlockNumber) :
    s.get_range et1 cr1 lo hi = s.get_range et2 cr2 lo hi :=
  rfl

end GraphNode
